import Mathlib

/-!
Verification of the `msk_cdm` MinIO wrapper
(`src/msk_cdm/minio/_minio_api.py`).

The repository is a thin wrapper around the MinIO SDK: a `MinioAPI`
class that resolves connection configuration from an environment file
(`_process_env`) and forwards five object operations (list, read,
write, delete, copy) to the SDK client.

Shallow embedding conventions:
* An environment file / the process environment is a finite string map
  `EnvMap := String → Option String` (`none` = key absent).
* The filesystem of environment files is `fs : String → EnvMap`
  (filename → parsed `KEY=value` contents, as `dotenv_values` returns).
* The remote object store is a list of stored objects; the MinIO SDK
  operations (`list_objects`, `get_object`, `put_object`,
  `remove_object`, `copy_object`) are modelled on it with the S3
  semantics the SDK exposes: `get`/`copy` fail with `objectNotFound`
  when the key is absent, `remove` succeeds whether or not the object
  exists, and every operation rejects a missing (`None`) bucket name
  (`invalidBucketName`, the SDK's bucket-name validation).
* Python exceptions become `Except` / explicit error values; the
  `KeyError` raised by `dict_config[...]` on a missing required key is
  the spec's *MissingConfiguration* error.
* Bytes are `List Nat` (values < 256 for genuine UTF-8 output);
  `utf8Encode` models Python's `str.encode("utf-8")`.
* `pandas.DataFrame.to_csv(index=False, sep=sep)` is modelled by
  `to_csv` on a header-plus-rows table, with csv minimal quoting.
-/

/-- A string-to-string environment, as returned by `dotenv_values`:
`none` means the key is absent. -/
def EnvMap : Type := String → Option String

/-- Update one key of an environment map (`dict_config[k] = v`). -/
def EnvMap.upd (m : EnvMap) (k v : String) : EnvMap :=
  fun k' => if k' = k then some v else m k'

/-- Look a key up. -/
def EnvMap.get (m : EnvMap) (k : String) : Option String := m k

/-- Model of `dotenv.load_dotenv(path)` followed by `os.getenv`:
`load_dotenv` populates the process environment from the file without
overriding variables that are already set, so a later `os.getenv k`
sees the original process-environment value when there is one and the
file's value otherwise. -/
def loadDotenvGetenv (procEnv : EnvMap) (fileVals : EnvMap) : EnvMap :=
  fun k =>
    match procEnv k with
    | some v => some v
    | none => fileVals k

/-- Errors arising during configuration resolution.  `_process_env`
raises `KeyError` when a required key is missing from the resolved
dictionary; the spec calls this *MissingConfiguration*. -/
inductive ConfigError where
  | missingConfiguration : String → ConfigError
deriving DecidableEq, Repr

/-- The five required resolved configuration fields
(`self._ACCESS_KEY`, `self._SECRET_KEY`, `self._ca_certs`,
`self._url_port`, `self._bucket` as set at the end of `_process_env`). -/
structure ResolvedConfig where
  ACCESS_KEY : String
  SECRET_KEY : String
  ca_certs : String
  url_port : String
  bucket : String
deriving DecidableEq, Repr

/-- The overlay stage of `_process_env` (lines 129-141): read the
environment file into `dict_config`, load the secondary file named by
its `MINIO_ENV` key into the process environment, then overwrite
`dict_config["ACCESS_KEY"]` / `dict_config["SECRET_KEY"]` with the
`os.getenv` values when those are truthy (non-`None` and non-empty).
When `MINIO_ENV` is absent the source raises before any overlay; this
function then returns the raw dictionary (the caller `process_env`
errors out on that branch before consulting it). -/
def resolved_dict (fs : String → EnvMap) (procEnv : EnvMap)
    (fname_minio_env : String) : EnvMap :=
  let dict_config := fs fname_minio_env
  match dict_config "MINIO_ENV" with
  | none => dict_config
  | some minio_env =>
    let getenv := loadDotenvGetenv procEnv (fs minio_env)
    let dict_config :=
      match getenv "ACCESS_KEY" with
      | some v => if v = "" then dict_config else dict_config.upd "ACCESS_KEY" v
      | none => dict_config
    let dict_config :=
      match getenv "SECRET_KEY" with
      | some v => if v = "" then dict_config else dict_config.upd "SECRET_KEY" v
      | none => dict_config
    dict_config

/-- `MinioAPI._process_env` (lines 128-144): two-stage configuration
resolution.  `dict_config["MINIO_ENV"]` raises `KeyError` when the
indirection key is absent; after the overlay, each of the five
required keys is read with `dict_config[...]`, raising `KeyError`
(= *MissingConfiguration*) when absent. -/
def process_env (fs : String → EnvMap) (procEnv : EnvMap)
    (fname_minio_env : String) : Except ConfigError ResolvedConfig :=
  match (fs fname_minio_env) "MINIO_ENV" with
  | none => .error (.missingConfiguration "MINIO_ENV")
  | some _ =>
    let dict_config := resolved_dict fs procEnv fname_minio_env
    match dict_config "ACCESS_KEY" with
    | none => .error (.missingConfiguration "ACCESS_KEY")
    | some a =>
      match dict_config "SECRET_KEY" with
      | none => .error (.missingConfiguration "SECRET_KEY")
      | some s =>
        match dict_config "CA_CERTS" with
        | none => .error (.missingConfiguration "CA_CERTS")
        | some c =>
          match dict_config "URL_PORT" with
          | none => .error (.missingConfiguration "URL_PORT")
          | some u =>
            match dict_config "BUCKET" with
            | none => .error (.missingConfiguration "BUCKET")
            | some b => .ok ⟨a, s, c, u, b⟩

/-- UTF-8 encoding of one character, modelling Python's
`str.encode("utf-8")` for a single code point. -/
def utf8EncodeChar (c : Char) : List Nat :=
  let n := c.toNat
  if n < 0x80 then [n]
  else if n < 0x800 then [0xC0 + n / 64, 0x80 + n % 64]
  else if n < 0x10000 then
    [0xE0 + n / 4096, 0x80 + n / 64 % 64, 0x80 + n % 64]
  else
    [0xF0 + n / 262144, 0x80 + n / 4096 % 64, 0x80 + n / 64 % 64,
      0x80 + n % 64]

/-- Model of Python's `str.encode("utf-8")`: the byte sequence of a
string. -/
def utf8Encode (s : String) : List Nat :=
  (s.data.map utf8EncodeChar).flatten

/-- A pandas DataFrame as the wrapper uses it: a header of column
names and rows of string-rendered cells. -/
structure DataFrame where
  columns : List String
  rows : List (List String)
deriving DecidableEq, Repr

/-- Double every double-quote in a field, modelling
`field.replace('"', '""')` inside csv quoting. -/
def csvEscape (f : String) : String :=
  String.mk (f.data.foldr
    (fun c acc => if c = '"' then '"' :: '"' :: acc else c :: acc) [])

/-- Render one csv field with minimal quoting, as
`pandas.DataFrame.to_csv` does: a field is quoted (with inner quotes
doubled) exactly when it contains the separator, a double quote, or a
line break. -/
def csvField (sep : Char) (f : String) : String :=
  if f.contains sep || f.contains '"' || f.contains '\n' || f.contains '\r' then
    "\"" ++ csvEscape f ++ "\""
  else f

/-- Render one csv record: its fields joined by the separator. -/
def csvLine (sep : Char) (fields : List String) : String :=
  String.intercalate (String.singleton sep) (fields.map (csvField sep))

/-- Model of `df.to_csv(index=False, sep=sep)`: the header row
followed by the data rows, each terminated by a newline, with no
row-index column. -/
def to_csv (df : DataFrame) (sep : Char) : String :=
  String.join ((df.columns :: df.rows).map (fun r => csvLine sep r ++ "\n"))

/-- Errors surfaced by the modelled MinIO SDK calls:
`objectNotFound` when `get_object`/`copy_object` name an absent key
(S3 `NoSuchKey`), `invalidBucketName` when a bucket argument is still
`None` when it reaches the SDK's bucket-name validation. -/
inductive MinioError where
  | objectNotFound : MinioError
  | invalidBucketName : MinioError
deriving DecidableEq, Repr

/-- One object in the remote store: bucket, key and content bytes. -/
structure StoredObject where
  bucket : String
  objectName : String
  data : List Nat
deriving DecidableEq, Repr

/-- The remote object store, in backend listing order. -/
abbrev Store := List StoredObject

/-- Does a key pass an optional prefix filter (`str.startswith`)? -/
def matchesPrefix (pre : Option String) (key : String) : Bool :=
  match pre with
  | none => true
  | some p => go key.data p.data
where
  /-- `key.startswith(p)` on character lists. -/
  go : List Char → List Char → Bool
    | _, [] => true
    | [], _ :: _ => false
    | c :: cs, p :: ps => c == p && go cs ps

/-- Model of `Minio.list_objects(bucket_name, prefix, recursive)`:
the stored objects of the bucket whose keys match the prefix, in
store order.  (With `recursive=True` every matching key is listed;
the flag does not reorder or drop keys.) -/
def Store.list_objects (store : Store) (bucket_name : String)
    (pre : Option String) (recursive : Bool) : List StoredObject :=
  store.filter (fun o => o.bucket == bucket_name && matchesPrefix pre o.objectName)

/-- Model of `Minio.get_object`: the object's bytes, or
`objectNotFound` when no object with that bucket and key exists. -/
def Store.get_object (store : Store) (bucket_name : String)
    (object_name : String) : Except MinioError (List Nat) :=
  match store.find? (fun o => o.bucket == bucket_name && o.objectName == object_name) with
  | some o => .ok o.data
  | none => .error .objectNotFound

/-- Replace-or-insert an object (S3 put semantics: a put overwrites
any existing object with the same bucket and key). -/
def Store.insertObject (store : Store) (bucket_name object_name : String)
    (data : List Nat) : Store :=
  store.filter (fun o => !(o.bucket == bucket_name && o.objectName == object_name))
    ++ [⟨bucket_name, object_name, data⟩]

/-- The argument record of one `put_object` SDK call, as issued by
`save_obj`. -/
structure PutCall where
  bucket_name : String
  object_name : String
  data : List Nat
  length : Nat
  content_type : String
deriving DecidableEq, Repr

/-- Model of `Minio.put_object`: store the call's bytes under its
bucket and key. -/
def Store.put_object (store : Store) (call : PutCall) : Store :=
  store.insertObject call.bucket_name call.object_name call.data

/-- Model of `Minio.remove_object`: drop the object if present.  S3
delete succeeds whether or not the object exists. -/
def Store.remove_object (store : Store) (bucket_name object_name : String) : Store :=
  store.filter (fun o => !(o.bucket == bucket_name && o.objectName == object_name))

/-- Model of `Minio.copy_object(dest_bucket, dest_key,
CopySource(src_bucket, src_key))`: returns the new store and the
result's `(object_name, version_id)` (no versioning, so the version
marker is `none`); fails with `objectNotFound`, leaving the store
unchanged, when the source is absent. -/
def Store.copy_object (store : Store) (dest_bucket dest_key : String)
    (src_bucket src_key : String) :
    Store × Except MinioError (String × Option String) :=
  match store.find? (fun o => o.bucket == src_bucket && o.objectName == src_key) with
  | none => (store, .error .objectNotFound)
  | some o => (store.insertObject dest_bucket dest_key o.data, .ok (dest_key, none))

/-- The connection state of a `MinioAPI` instance after construction:
the five `self._*` fields set by `__init__` / `_process_env`.  The
live SDK `self._client` is represented by passing the `Store` to each
operation. -/
structure MinioAPI where
  ACCESS_KEY : Option String
  SECRET_KEY : Option String
  ca_certs : Option String
  url_port : Option String
  bucket : Option String
deriving DecidableEq, Repr

/-- The bucket-resolution rule shared by `print_list_objects`,
`load_obj`, `save_obj` and `copy_obj`:
`if self._bucket is not None: bucket_name = self._bucket`. -/
def MinioAPI.resolveBucket (self : MinioAPI) (bucket_name : Option String) :
    Option String :=
  match self.bucket with
  | some b => some b
  | none => bucket_name

/-- `MinioAPI.__init__` (lines 20-51): keyword-only credential
arguments, no bucket argument; `self._bucket` starts as `None` and is
only touched by `_process_env`, which runs exactly when
`fname_minio_env` is passed.  A `KeyError` in `_process_env`
propagates out of the constructor. -/
def minioInit (ACCESS_KEY SECRET_KEY ca_certs url_port : Option String)
    (fs : String → EnvMap) (procEnv : EnvMap)
    (fname_minio_env : Option String) : Except ConfigError MinioAPI :=
  let base : MinioAPI :=
    { ACCESS_KEY := ACCESS_KEY, SECRET_KEY := SECRET_KEY,
      ca_certs := ca_certs, url_port := url_port, bucket := none }
  match fname_minio_env with
  | none => .ok base
  | some fname =>
    match process_env fs procEnv fname with
    | .error e => .error e
    | .ok cfg =>
      .ok { ACCESS_KEY := some cfg.ACCESS_KEY, SECRET_KEY := some cfg.SECRET_KEY,
            ca_certs := some cfg.ca_certs, url_port := some cfg.url_port,
            bucket := some cfg.bucket }

/-- `MinioAPI.print_list_objects` (lines 53-64): resolve the bucket
(default bucket wins), call `list_objects`, and accumulate
`obj.object_name` into `obj_list` with repeated `append`. -/
def MinioAPI.print_list_objects (self : MinioAPI) (store : Store)
    (bucket_name : Option String) (pre : Option String) (recursive : Bool) :
    Except MinioError (List String) :=
  match self.resolveBucket bucket_name with
  | none => .error .invalidBucketName
  | some b =>
    .ok ((store.list_objects b pre recursive).foldl
      (fun obj_list o => obj_list ++ [o.objectName]) [])

/-- `MinioAPI.load_obj` (lines 66-85): resolve the bucket (default
bucket wins) and call `get_object`. -/
def MinioAPI.load_obj (self : MinioAPI) (store : Store)
    (path_object : String) (bucket_name : Option String) :
    Except MinioError (List Nat) :=
  match self.resolveBucket bucket_name with
  | none => .error .invalidBucketName
  | some b => store.get_object b path_object

/-- `MinioAPI.save_obj` (lines 87-102): resolve the bucket (default
bucket wins), serialize with `df.to_csv(index=False, sep=sep)`,
UTF-8-encode, and `put_object` with `length=len(csv_bytes)` and
`content_type="application/csv"`.  The result carries the new store,
the issued `put_object` call, and the function's Python return value
(`None`, the last component). -/
def MinioAPI.save_obj (self : MinioAPI) (store : Store) (df : DataFrame)
    (path_object : String) (sep : Char) (bucket_name : Option String) :
    Except MinioError (Store × PutCall × Option (List Nat)) :=
  match self.resolveBucket bucket_name with
  | none => .error .invalidBucketName
  | some b =>
    let csv_bytes := utf8Encode (to_csv df sep)
    let call : PutCall :=
      { bucket_name := b, object_name := path_object, data := csv_bytes,
        length := csv_bytes.length, content_type := "application/csv" }
    .ok (store.put_object call, call, none)

/-- `MinioAPI.remove_obj` (lines 104-109): no default-bucket
resolution — the caller's `bucket_name` goes straight to
`remove_object` (raising in the SDK's bucket validation when it is
`None`), then a confirmation line
`"Object removed. Bucket: %s, Object: %s"` is printed.  The result
carries the new store, the printed line, and the Python return value
(`None`). -/
def MinioAPI.remove_obj (self : MinioAPI) (store : Store)
    (path_object : String) (bucket_name : Option String) :
    Except MinioError (Store × String × Option (List Nat)) :=
  match bucket_name with
  | none => .error .invalidBucketName
  | some b =>
    .ok (store.remove_object b path_object,
      "Object removed. Bucket: " ++ b ++ ", Object: " ++ path_object, none)

/-- `MinioAPI.copy_obj` (lines 111-126): when a default bucket is
configured it replaces BOTH the source and the destination bucket,
then `copy_object(dest_bucket, dest_path, CopySource(source_bucket,
source_path))` runs and `[result.object_name, result.version_id]` is
returned. -/
def MinioAPI.copy_obj (self : MinioAPI) (store : Store)
    (source_path_object dest_path_object : String)
    (source_bucket dest_bucket : Option String) :
    Store × Except MinioError (String × Option String) :=
  let source_bucket := self.resolveBucket source_bucket
  let dest_bucket := self.resolveBucket dest_bucket
  match source_bucket with
  | none => (store, .error .invalidBucketName)
  | some sb =>
    match dest_bucket with
    | none => (store, .error .invalidBucketName)
    | some db => store.copy_object db dest_path_object sb source_path_object

/-- Concrete environment-file system used by the witnesses and
counterexamples: `"minio.env"` holds every required key, with
`BUCKET=defbucket`, and points `MINIO_ENV` at the empty secondary
file `"sec.env"`. -/
def fsDef : String → EnvMap := fun fname k =>
  if fname = "minio.env" then
    if k = "MINIO_ENV" then some "sec.env"
    else if k = "ACCESS_KEY" then some "file-access"
    else if k = "SECRET_KEY" then some "file-secret"
    else if k = "CA_CERTS" then some "ca.pem"
    else if k = "URL_PORT" then some "host:9000"
    else if k = "BUCKET" then some "defbucket"
    else none
  else none

/-- Like `fsDef` but with the required `BUCKET` key missing from
`"minio.env"`. -/
def fsNoBucket : String → EnvMap := fun fname k =>
  if fname = "minio.env" then
    if k = "MINIO_ENV" then some "sec.env"
    else if k = "ACCESS_KEY" then some "file-access"
    else if k = "SECRET_KEY" then some "file-secret"
    else if k = "CA_CERTS" then some "ca.pem"
    else if k = "URL_PORT" then some "host:9000"
    else none
  else none

/-- An empty process environment. -/
def procEnvEmpty : EnvMap := fun _ => none

/-- A process environment with `ACCESS_KEY` set to the empty string. -/
def procEnvEmptyAccess : EnvMap := fun k =>
  if k = "ACCESS_KEY" then some "" else none

/-- A process environment overriding both credentials with non-empty
values. -/
def procEnvOverride : EnvMap := fun k =>
  if k = "ACCESS_KEY" then some "env-access"
  else if k = "SECRET_KEY" then some "env-secret"
  else none

/-- The client that `minioInit` builds from `fsDef`'s `"minio.env"`:
all five fields filled from the file, default bucket `"defbucket"`. -/
def clientDef : MinioAPI :=
  ⟨some "file-access", some "file-secret", some "ca.pem", some "host:9000",
    some "defbucket"⟩

/-- A client constructed without an environment file: no default
bucket. -/
def clientNoBucket : MinioAPI := ⟨none, none, none, none, none⟩

theorem foldl_append_singleton {α β : Type} (f : α → β) :
    ∀ (l : List α) (acc : List β),
      l.foldl (fun acc o => acc ++ [f o]) acc = acc ++ l.map f := by
  intro l
  induction l with
  | nil => intro acc; simp
  | cons h t ih => intro acc; simp [ih]

theorem string_join_cons (s : String) (l : List String) :
    String.join (s :: l) = s ++ String.join l := by
  rw [String.join_eq, String.join_eq]
  apply String.ext
  simp

theorem EnvMap.upd_self (m : EnvMap) (k v : String) : m.upd k v k = some v := by
  unfold EnvMap.upd
  simp

theorem EnvMap.upd_ne (m : EnvMap) (k v k' : String) (h : k' ≠ k) :
    m.upd k v k' = m k' := by
  unfold EnvMap.upd
  simp [h]

theorem resolved_dict_ACCESS (fs : String → EnvMap) (procEnv : EnvMap) (fname p : String)
    (hm : (fs fname) "MINIO_ENV" = some p) :
    resolved_dict fs procEnv fname "ACCESS_KEY"
      = match loadDotenvGetenv procEnv (fs p) "ACCESS_KEY" with
        | some v => if v = "" then (fs fname) "ACCESS_KEY" else some v
        | none => (fs fname) "ACCESS_KEY" := by
  unfold resolved_dict
  simp only [hm]
  rcases hA : loadDotenvGetenv procEnv (fs p) "ACCESS_KEY" with _ | v <;>
    rcases hS : loadDotenvGetenv procEnv (fs p) "SECRET_KEY" with _ | w <;>
    simp only [hA, hS] <;>
    split_ifs <;>
    simp [EnvMap.upd]

theorem resolved_dict_SECRET (fs : String → EnvMap) (procEnv : EnvMap) (fname p : String)
    (hm : (fs fname) "MINIO_ENV" = some p) :
    resolved_dict fs procEnv fname "SECRET_KEY"
      = match loadDotenvGetenv procEnv (fs p) "SECRET_KEY" with
        | some w => if w = "" then (fs fname) "SECRET_KEY" else some w
        | none => (fs fname) "SECRET_KEY" := by
  unfold resolved_dict
  simp only [hm]
  rcases hA : loadDotenvGetenv procEnv (fs p) "ACCESS_KEY" with _ | v <;>
    rcases hS : loadDotenvGetenv procEnv (fs p) "SECRET_KEY" with _ | w <;>
    simp only [hA, hS] <;>
    split_ifs <;>
    simp [EnvMap.upd]

theorem resolved_dict_other (fs : String → EnvMap) (procEnv : EnvMap) (fname k : String)
    (hka : k ≠ "ACCESS_KEY") (hks : k ≠ "SECRET_KEY") :
    resolved_dict fs procEnv fname k = (fs fname) k := by
  unfold resolved_dict
  rcases hm : (fs fname) "MINIO_ENV" with _ | p
  · rfl
  · rcases hA : loadDotenvGetenv procEnv (fs p) "ACCESS_KEY" with _ | v <;>
      rcases hS : loadDotenvGetenv procEnv (fs p) "SECRET_KEY" with _ | w <;>
      simp only [hA, hS] <;>
      split_ifs <;>
      simp [EnvMap.upd, hka, hks]

theorem process_env_ok_lookup (fs : String → EnvMap) (procEnv : EnvMap) (fname : String)
    (cfg : ResolvedConfig) (h : process_env fs procEnv fname = .ok cfg) :
    (∃ p, (fs fname) "MINIO_ENV" = some p) ∧
    resolved_dict fs procEnv fname "ACCESS_KEY" = some cfg.ACCESS_KEY ∧
    resolved_dict fs procEnv fname "SECRET_KEY" = some cfg.SECRET_KEY ∧
    resolved_dict fs procEnv fname "CA_CERTS" = some cfg.ca_certs ∧
    resolved_dict fs procEnv fname "URL_PORT" = some cfg.url_port ∧
    resolved_dict fs procEnv fname "BUCKET" = some cfg.bucket := by
  unfold process_env at h
  rcases hm : (fs fname) "MINIO_ENV" with _ | p
  · simp only [hm] at h
    exact Except.noConfusion h
  simp only [hm] at h
  rcases ha : resolved_dict fs procEnv fname "ACCESS_KEY" with _ | a
  · simp only [ha] at h
    exact Except.noConfusion h
  simp only [ha] at h
  rcases hs : resolved_dict fs procEnv fname "SECRET_KEY" with _ | s
  · simp only [hs] at h
    exact Except.noConfusion h
  simp only [hs] at h
  rcases hc : resolved_dict fs procEnv fname "CA_CERTS" with _ | c
  · simp only [hc] at h
    exact Except.noConfusion h
  simp only [hc] at h
  rcases hu : resolved_dict fs procEnv fname "URL_PORT" with _ | u
  · simp only [hu] at h
    exact Except.noConfusion h
  simp only [hu] at h
  rcases hb : resolved_dict fs procEnv fname "BUCKET" with _ | b
  · simp only [hb] at h
    exact Except.noConfusion h
  simp only [hb] at h
  injection h with h2
  subst h2
  exact ⟨⟨p, rfl⟩, rfl, rfl, rfl, rfl, rfl⟩

theorem process_env_ok_of_lookup (fs : String → EnvMap) (procEnv : EnvMap)
    (fname p a s c u b : String)
    (hm : (fs fname) "MINIO_ENV" = some p)
    (ha : resolved_dict fs procEnv fname "ACCESS_KEY" = some a)
    (hs : resolved_dict fs procEnv fname "SECRET_KEY" = some s)
    (hc : resolved_dict fs procEnv fname "CA_CERTS" = some c)
    (hu : resolved_dict fs procEnv fname "URL_PORT" = some u)
    (hb : resolved_dict fs procEnv fname "BUCKET" = some b) :
    process_env fs procEnv fname = .ok ⟨a, s, c, u, b⟩ := by
  simp only [process_env, hm, ha, hs, hc, hu, hb]

/-- C1 (counterexample): the claim says all five operations use the
configured default bucket, silently overriding the caller's bucket
argument — but `remove_obj` (delete) does not.  For the client built
from an environment file with `BUCKET=defbucket`, deleting key `"k"`
with caller bucket `"other"` removes the object from bucket `"other"`
(the `"defbucket"` object survives) and the confirmation line names
`"other"`, not the default bucket. -/
theorem C1_counterexample_delete_ignores_default_bucket :
    minioInit none none none none fsDef procEnvEmpty (some "minio.env") = .ok clientDef ∧
    clientDef.bucket = some "defbucket" ∧
    clientDef.remove_obj [⟨"other", "k", []⟩, ⟨"defbucket", "k", []⟩] "k" (some "other")
      = .ok ([⟨"defbucket", "k", []⟩],
          "Object removed. Bucket: other, Object: k", none) ∧
    ("other" : String) ≠ "defbucket" := by
  refine ⟨rfl, rfl, rfl, by decide⟩

/-- C1 (amended): for every client with a configured default bucket,
the list, read, write and copy operations use the default bucket,
silently overriding any bucket argument the caller passes; the delete
operation instead always uses the caller-supplied bucket argument. -/
theorem C1_amended_default_bucket_rule (c : MinioAPI) (b : String)
    (h : c.bucket = some b) (store : Store)
    (bucket_name other_bucket : Option String) (pre : Option String)
    (recursive : Bool) (df : DataFrame) (sep : Char) (key dest_key b' : String) :
    c.print_list_objects store bucket_name pre recursive
      = .ok ((store.list_objects b pre recursive).map (fun o => o.objectName)) ∧
    c.load_obj store key bucket_name = store.get_object b key ∧
    c.save_obj store df key sep bucket_name
      = .ok (store.put_object
            ⟨b, key, utf8Encode (to_csv df sep),
              (utf8Encode (to_csv df sep)).length, "application/csv"⟩,
          ⟨b, key, utf8Encode (to_csv df sep),
            (utf8Encode (to_csv df sep)).length, "application/csv"⟩, none) ∧
    c.copy_obj store key dest_key bucket_name other_bucket
      = store.copy_object b dest_key b key ∧
    c.remove_obj store key (some b')
      = .ok (store.remove_object b' key,
          "Object removed. Bucket: " ++ b' ++ ", Object: " ++ key, none) := by
  have hr : ∀ bn, c.resolveBucket bn = some b := fun bn => by
    unfold MinioAPI.resolveBucket
    rw [h]
  refine ⟨?_, ?_, ?_, ?_, rfl⟩
  · simp only [MinioAPI.print_list_objects, hr]
    rw [foldl_append_singleton]
    simp
  · simp only [MinioAPI.load_obj, hr]
  · simp only [MinioAPI.save_obj, hr]
  · simp only [MinioAPI.copy_obj, hr]

/-- C1 (witness): the amended rule applied to the concrete client
with default bucket `"defbucket"`. -/
theorem C1_amended_default_bucket_rule_witness :
    clientDef.bucket = some "defbucket" ∧
    clientDef.remove_obj [] "k" (some "other")
      = .ok (Store.remove_object [] "other" "k",
          "Object removed. Bucket: other, Object: k", none) :=
  ⟨rfl,
    (C1_amended_default_bucket_rule clientDef "defbucket" rfl [] (some "x") none
      none true ⟨["h"], []⟩ ',' "k" "k2" "other").2.2.2.2⟩

/-- C2: if any of the five required resolved fields (access key,
secret key, CA certificate path, endpoint, bucket) is absent from the
dictionary after the two-stage resolution, `_process_env` fails with a
*MissingConfiguration* error. -/
theorem C2_missing_required_field_errors (fs : String → EnvMap) (procEnv : EnvMap)
    (fname k : String)
    (hk : k = "ACCESS_KEY" ∨ k = "SECRET_KEY" ∨ k = "CA_CERTS" ∨
      k = "URL_PORT" ∨ k = "BUCKET")
    (h : resolved_dict fs procEnv fname k = none) :
    ∃ k', process_env fs procEnv fname = .error (.missingConfiguration k') := by
  rcases hres : process_env fs procEnv fname with e | cfg
  · cases e with
    | missingConfiguration k' => exact ⟨k', rfl⟩
  · exfalso
    obtain ⟨_, ha, hs2, hc, hu, hb⟩ := process_env_ok_lookup fs procEnv fname cfg hres
    rcases hk with rfl | rfl | rfl | rfl | rfl
    · rw [h] at ha
      exact Option.noConfusion ha
    · rw [h] at hs2
      exact Option.noConfusion hs2
    · rw [h] at hc
      exact Option.noConfusion hc
    · rw [h] at hu
      exact Option.noConfusion hu
    · rw [h] at hb
      exact Option.noConfusion hb

/-- C2 (witness): an environment file missing `BUCKET` makes
resolution fail with a *MissingConfiguration* error. -/
theorem C2_missing_required_field_errors_witness :
    resolved_dict fsNoBucket procEnvEmpty "minio.env" "BUCKET" = none ∧
    ∃ k', process_env fsNoBucket procEnvEmpty "minio.env"
      = .error (.missingConfiguration k') :=
  ⟨rfl,
    C2_missing_required_field_errors fsNoBucket procEnvEmpty "minio.env" "BUCKET"
      (Or.inr (Or.inr (Or.inr (Or.inr rfl)))) rfl⟩

/-- C3 (counterexample): the claim says that whenever the
process-environment variable `ACCESS_KEY` is set it takes precedence
over the file value — but an `ACCESS_KEY` set to the empty string is
ignored: the resolved access key is the file's `"file-access"`, not
the process-environment value. -/
theorem C3_counterexample_empty_env_value_not_used :
    procEnvEmptyAccess "ACCESS_KEY" = some "" ∧
    process_env fsDef procEnvEmptyAccess "minio.env"
      = .ok ⟨"file-access", "file-secret", "ca.pem", "host:9000", "defbucket"⟩ ∧
    ("file-access" : String) ≠ "" := by
  refine ⟨rfl, rfl, by decide⟩

/-- C3 (amended): when the process-environment variable `ACCESS_KEY`
or `SECRET_KEY` is set to a NON-EMPTY value, the resolved
configuration uses the process-environment value for that field in
preference to the value found in the file. -/
theorem C3_amended_nonempty_env_overrides (fs : String → EnvMap)
    (procEnv : EnvMap) (fname : String) (cfg : ResolvedConfig)
    (h : process_env fs procEnv fname = .ok cfg) :
    (∀ v, procEnv "ACCESS_KEY" = some v → v ≠ "" → cfg.ACCESS_KEY = v) ∧
    (∀ w, procEnv "SECRET_KEY" = some w → w ≠ "" → cfg.SECRET_KEY = w) := by
  obtain ⟨⟨p, hm⟩, ha, hs, _, _, _⟩ := process_env_ok_lookup fs procEnv fname cfg h
  constructor
  · intro v hv hne
    have hg : loadDotenvGetenv procEnv (fs p) "ACCESS_KEY" = some v := by
      unfold loadDotenvGetenv
      rw [hv]
    have hr := resolved_dict_ACCESS fs procEnv fname p hm
    simp only [hg, if_neg hne] at hr
    rw [hr] at ha
    injection ha with h2
    exact h2.symm
  · intro w hv hne
    have hg : loadDotenvGetenv procEnv (fs p) "SECRET_KEY" = some w := by
      unfold loadDotenvGetenv
      rw [hv]
    have hr := resolved_dict_SECRET fs procEnv fname p hm
    simp only [hg, if_neg hne] at hr
    rw [hr] at hs
    injection hs with h2
    exact h2.symm

/-- C3 (witness): with `ACCESS_KEY=env-access` in the process
environment, resolution against `fsDef` uses the environment value. -/
theorem C3_amended_nonempty_env_overrides_witness :
    (⟨"env-access", "env-secret", "ca.pem", "host:9000", "defbucket"⟩
      : ResolvedConfig).ACCESS_KEY = "env-access" :=
  (C3_amended_nonempty_env_overrides fsDef procEnvOverride "minio.env"
      ⟨"env-access", "env-secret", "ca.pem", "host:9000", "defbucket"⟩ rfl).1
    "env-access" rfl (by decide)

/-- C4: for a configuration file containing all required keys, when
the effective process environment (after `load_dotenv` of the
secondary file) supplies no `ACCESS_KEY`/`SECRET_KEY` override, the
resolved configuration is exactly the file's values. -/
theorem C4_file_values_resolved_exactly (fs : String → EnvMap) (procEnv : EnvMap)
    (fname p a s c u b : String)
    (hm : (fs fname) "MINIO_ENV" = some p)
    (hfa : (fs fname) "ACCESS_KEY" = some a)
    (hfs : (fs fname) "SECRET_KEY" = some s)
    (hfc : (fs fname) "CA_CERTS" = some c)
    (hfu : (fs fname) "URL_PORT" = some u)
    (hfb : (fs fname) "BUCKET" = some b)
    (hea : loadDotenvGetenv procEnv (fs p) "ACCESS_KEY" = none ∨
           loadDotenvGetenv procEnv (fs p) "ACCESS_KEY" = some "")
    (hes : loadDotenvGetenv procEnv (fs p) "SECRET_KEY" = none ∨
           loadDotenvGetenv procEnv (fs p) "SECRET_KEY" = some "") :
    process_env fs procEnv fname = .ok ⟨a, s, c, u, b⟩ := by
  apply process_env_ok_of_lookup fs procEnv fname p a s c u b hm
  · have hr := resolved_dict_ACCESS fs procEnv fname p hm
    rcases hea with he | he
    · simp only [he] at hr
      rw [hr, hfa]
    · simp only [he] at hr
      simp at hr
      rw [hr, hfa]
  · have hr := resolved_dict_SECRET fs procEnv fname p hm
    rcases hes with he | he
    · simp only [he] at hr
      rw [hr, hfs]
    · simp only [he] at hr
      simp at hr
      rw [hr, hfs]
  · rw [resolved_dict_other fs procEnv fname "CA_CERTS" (by decide) (by decide), hfc]
  · rw [resolved_dict_other fs procEnv fname "URL_PORT" (by decide) (by decide), hfu]
  · rw [resolved_dict_other fs procEnv fname "BUCKET" (by decide) (by decide), hfb]

/-- C4 (witness): resolving `fsDef`'s `"minio.env"` with an empty
process environment yields exactly the file's five values. -/
theorem C4_file_values_resolved_exactly_witness :
    process_env fsDef procEnvEmpty "minio.env"
      = .ok ⟨"file-access", "file-secret", "ca.pem", "host:9000", "defbucket"⟩ :=
  C4_file_values_resolved_exactly fsDef procEnvEmpty "minio.env" "sec.env"
    "file-access" "file-secret" "ca.pem" "host:9000" "defbucket"
    rfl rfl rfl rfl rfl rfl (Or.inl rfl) (Or.inl rfl)

/-- C5: for every resolvable bucket and every prefix, the list
operation returns exactly the object keys the backend returns, in the
backend's order, and when no stored object matches the bucket and
prefix it returns the empty sequence (a value, not an error). -/
theorem C5_list_preserves_backend_order_and_empty (c : MinioAPI) (store : Store)
    (bucket_name : Option String) (b : String) (pre : Option String)
    (recursive : Bool) (hb : c.resolveBucket bucket_name = some b) :
    c.print_list_objects store bucket_name pre recursive
      = .ok ((store.list_objects b pre recursive).map (fun o => o.objectName)) ∧
    ((∀ o ∈ store, ¬(o.bucket = b ∧ matchesPrefix pre o.objectName = true)) →
      c.print_list_objects store bucket_name pre recursive = .ok []) := by
  have h1 : c.print_list_objects store bucket_name pre recursive
      = .ok ((store.list_objects b pre recursive).map (fun o => o.objectName)) := by
    simp only [MinioAPI.print_list_objects, hb]
    rw [foldl_append_singleton]
    simp
  refine ⟨h1, fun h => ?_⟩
  rw [h1]
  have hnil : store.list_objects b pre recursive = [] := by
    unfold Store.list_objects
    rw [List.filter_eq_nil_iff]
    intro o ho
    have := h o ho
    simp only [Bool.and_eq_true, beq_iff_eq] at *
    tauto
  rw [hnil]
  simp

/-- C5 (witness): a one-object store listed with a matching bucket
and prefix, via the list theorem at a concrete client. -/
theorem C5_list_preserves_backend_order_and_empty_witness :
    clientNoBucket.print_list_objects [⟨"b", "a/x", []⟩] (some "b") (some "a/") true
      = .ok ((Store.list_objects [⟨"b", "a/x", []⟩] "b" (some "a/") true).map
          (fun o => o.objectName)) :=
  (C5_list_preserves_backend_order_and_empty clientNoBucket [⟨"b", "a/x", []⟩]
    (some "b") "b" (some "a/") true rfl).1

/-- C6: for every tabular input and separator, the write operation
uploads the UTF-8 bytes of `to_csv df sep` with `length` equal to the
byte count and content type `application/csv`, returns `None`, and
the serialized text is the header row followed by exactly the data
rows (no row-index column). -/
theorem C6_save_obj_serialization (c : MinioAPI) (store : Store) (df : DataFrame)
    (path_object : String) (sep : Char) (bucket_name : Option String) (b : String)
    (hb : c.resolveBucket bucket_name = some b) :
    c.save_obj store df path_object sep bucket_name
      = .ok (store.put_object
            ⟨b, path_object, utf8Encode (to_csv df sep),
              (utf8Encode (to_csv df sep)).length, "application/csv"⟩,
          ⟨b, path_object, utf8Encode (to_csv df sep),
            (utf8Encode (to_csv df sep)).length, "application/csv"⟩, none) ∧
    to_csv df sep
      = csvLine sep df.columns ++ "\n"
        ++ String.join (df.rows.map (fun r => csvLine sep r ++ "\n")) := by
  constructor
  · simp only [MinioAPI.save_obj, hb]
  · unfold to_csv
    rw [List.map_cons, string_join_cons, String.append_assoc]

/-- C6 (witness): writing a concrete two-column, one-row table. -/
theorem C6_save_obj_serialization_witness :
    to_csv ⟨["h1", "h2"], [["x", "y"]]⟩ ','
      = csvLine ',' ["h1", "h2"] ++ "\n"
        ++ String.join ([["x", "y"]].map (fun r => csvLine ',' r ++ "\n")) :=
  (C6_save_obj_serialization clientNoBucket [] ⟨["h1", "h2"], [["x", "y"]]⟩
    "a/b.csv" ',' (some "data") "data" rfl).2

/-- C7: the delete operation, given a bucket, always completes
without an error, emitting a confirmation line that contains the
bucket and the key; when no object with that bucket and key exists,
the store is left unchanged (idempotence on absent keys). -/
theorem C7_remove_idempotent_and_confirms (c : MinioAPI) (store : Store)
    (path_object b : String) :
    c.remove_obj store path_object (some b)
      = .ok (store.remove_object b path_object,
          "Object removed. Bucket: " ++ b ++ ", Object: " ++ path_object, none) ∧
    ((∀ o ∈ store, ¬(o.bucket = b ∧ o.objectName = path_object)) →
      store.remove_object b path_object = store) := by
  refine ⟨rfl, fun h => ?_⟩
  unfold Store.remove_object
  rw [List.filter_eq_self]
  intro o ho
  have := h o ho
  simp only [Bool.not_eq_true', Bool.and_eq_false_iff, beq_iff_eq, beq_eq_false_iff_ne]
  tauto

/-- C7 (witness): deleting the non-existent key `"k"` from an empty
store succeeds and leaves the store unchanged. -/
theorem C7_remove_idempotent_and_confirms_witness :
    clientNoBucket.remove_obj [] "k" (some "b")
      = .ok (Store.remove_object [] "b" "k",
          "Object removed. Bucket: b, Object: k", none) ∧
    Store.remove_object ([] : Store) "b" "k" = [] :=
  ⟨(C7_remove_idempotent_and_confirms clientNoBucket [] "k" "b").1,
    (C7_remove_idempotent_and_confirms clientNoBucket [] "k" "b").2 (by simp)⟩

/-- C8: copying from a source key that does not exist fails with
*ObjectNotFound* and leaves the store unchanged — in particular no
destination object is created. -/
theorem C8_copy_missing_source_fails (c : MinioAPI) (store : Store)
    (source_path dest_path : String) (source_bucket dest_bucket : Option String)
    (sb db : String)
    (hs : c.resolveBucket source_bucket = some sb)
    (hd : c.resolveBucket dest_bucket = some db)
    (habs : ∀ o ∈ store, ¬(o.bucket = sb ∧ o.objectName = source_path)) :
    c.copy_obj store source_path dest_path source_bucket dest_bucket
      = (store, .error .objectNotFound) := by
  have hfind : store.find? (fun o => o.bucket == sb && o.objectName == source_path)
      = none := by
    rw [List.find?_eq_none]
    intro o ho
    have := habs o ho
    simp only [Bool.and_eq_true, beq_iff_eq]
    tauto
  simp only [MinioAPI.copy_obj, hs, hd, Store.copy_object, hfind]

/-- C8 (witness): copying `"src"` out of an empty store fails with
*ObjectNotFound* and the store stays empty. -/
theorem C8_copy_missing_source_fails_witness :
    clientNoBucket.copy_obj [] "src" "dst" (some "sb") (some "db")
      = ([], .error .objectNotFound) :=
  C8_copy_missing_source_fails clientNoBucket [] "src" "dst" (some "sb")
    (some "db") "sb" "db" rfl rfl (by simp)

/-- C9: `minioInit` takes no bucket argument; a client constructed
without an environment file has `bucket = none`, and every operation
then forwards exactly the caller-supplied bucket argument to the
backend (delete always does, whatever the client state). -/
theorem C9_no_env_file_no_default_bucket (ak sk cc up : Option String)
    (fs : String → EnvMap) (procEnv : EnvMap) (c : MinioAPI)
    (h : minioInit ak sk cc up fs procEnv none = .ok c)
    (store : Store) (b b' db : String) (pre : Option String) (recursive : Bool)
    (df : DataFrame) (sep : Char) (key dest_key : String) :
    c.bucket = none ∧
    c.print_list_objects store (some b) pre recursive
      = .ok ((store.list_objects b pre recursive).map (fun o => o.objectName)) ∧
    c.load_obj store key (some b) = store.get_object b key ∧
    c.save_obj store df key sep (some b)
      = .ok (store.put_object
            ⟨b, key, utf8Encode (to_csv df sep),
              (utf8Encode (to_csv df sep)).length, "application/csv"⟩,
          ⟨b, key, utf8Encode (to_csv df sep),
            (utf8Encode (to_csv df sep)).length, "application/csv"⟩, none) ∧
    c.copy_obj store key dest_key (some b) (some db)
      = store.copy_object db dest_key b key ∧
    c.remove_obj store key (some b')
      = .ok (store.remove_object b' key,
          "Object removed. Bucket: " ++ b' ++ ", Object: " ++ key, none) := by
  have hc : c = ⟨ak, sk, cc, up, none⟩ := by
    simp only [minioInit] at h
    exact ((Except.ok.injEq _ _).mp h.symm).symm.symm
  subst hc
  have hr : ∀ bn, MinioAPI.resolveBucket ⟨ak, sk, cc, up, none⟩ bn = bn :=
    fun bn => rfl
  refine ⟨rfl, ?_, rfl, ?_, rfl, rfl⟩
  · simp only [MinioAPI.print_list_objects, hr]
    rw [foldl_append_singleton]
    simp
  · simp only [MinioAPI.save_obj, hr]

/-- C9 (witness): the client built without an environment file has no
default bucket. -/
theorem C9_no_env_file_no_default_bucket_witness :
    clientNoBucket.bucket = none :=
  (C9_no_env_file_no_default_bucket none none none none fsDef procEnvEmpty
    clientNoBucket rfl [] "b" "b2" "db" none true ⟨[], []⟩ ',' "k" "k2").1

/-- C10: a process-environment `ACCESS_KEY` or `SECRET_KEY` set to
the empty string does not override the file-sourced value: the
resolved field is still the file's value. -/
theorem C10_empty_env_value_does_not_override (fs : String → EnvMap)
    (procEnv : EnvMap) (fname : String) (cfg : ResolvedConfig) (a s : String)
    (h : process_env fs procEnv fname = .ok cfg) :
    (procEnv "ACCESS_KEY" = some "" → (fs fname) "ACCESS_KEY" = some a →
      cfg.ACCESS_KEY = a) ∧
    (procEnv "SECRET_KEY" = some "" → (fs fname) "SECRET_KEY" = some s →
      cfg.SECRET_KEY = s) := by
  obtain ⟨⟨p, hm⟩, ha, hs, _, _, _⟩ := process_env_ok_lookup fs procEnv fname cfg h
  constructor
  · intro hv hfa
    have hg : loadDotenvGetenv procEnv (fs p) "ACCESS_KEY" = some "" := by
      unfold loadDotenvGetenv
      rw [hv]
    have hr := resolved_dict_ACCESS fs procEnv fname p hm
    simp only [hg] at hr
    simp at hr
    rw [hr, hfa] at ha
    injection ha with h2
    exact h2.symm
  · intro hv hfs2
    have hg : loadDotenvGetenv procEnv (fs p) "SECRET_KEY" = some "" := by
      unfold loadDotenvGetenv
      rw [hv]
    have hr := resolved_dict_SECRET fs procEnv fname p hm
    simp only [hg] at hr
    simp at hr
    rw [hr, hfs2] at hs
    injection hs with h2
    exact h2.symm

/-- C10 (witness): with `ACCESS_KEY=""` in the process environment,
resolution against `fsDef` keeps the file's `"file-access"`. -/
theorem C10_empty_env_value_does_not_override_witness :
    procEnvEmptyAccess "ACCESS_KEY" = some "" ∧
    (⟨"file-access", "file-secret", "ca.pem", "host:9000", "defbucket"⟩
      : ResolvedConfig).ACCESS_KEY = "file-access" :=
  ⟨rfl,
    (C10_empty_env_value_does_not_override fsDef procEnvEmptyAccess "minio.env"
      ⟨"file-access", "file-secret", "ca.pem", "host:9000", "defbucket"⟩
      "file-access" "file-secret" rfl).1 rfl rfl⟩
